import Mathlib

/-!
Shallow embedding of the EcoWatt acquisition engine (C++ sources under
`src/cpp/src`), and proofs about:

* the Modbus frame codec (`modbus_frame.cpp`),
* the protocol adapter with its retry loop and statistics (`protocol_adapter.cpp`),
* the acquisition scheduler's poll cycle (`acquisition_scheduler_new.cpp`),
* the in-memory ring store and SQLite-backed store (`data_storage.cpp`).

Machine integers are embedded as `Nat` (all source values are `uint8_t` /
`uint16_t`; bounds are stated explicitly where they matter). Fallible
operations return `Except`/`Option`.
-/

set_option maxRecDepth 4000

namespace ecoWatt

/-! ### Frame codec: `modbus_frame.cpp` -/

/-- One iteration of the inner CRC loop of `ModbusFrame::calculateCRC`:
`if (crc & 0x0001) { crc >>= 1; crc ^= 0xA001; } else { crc >>= 1; }`. -/
def crcStep (crc : Nat) : Nat :=
  if crc &&& 0x0001 ≠ 0 then (crc >>> 1) ^^^ 0xA001 else crc >>> 1

/-- The 8-fold repetition of `crcStep` (the `for (int i = 0; i < 8; i++)` loop). -/
def crcRounds : Nat → Nat → Nat
  | 0, crc => crc
  | n + 1, crc => crcRounds n (crcStep crc)

/-- `ModbusFrame::calculateCRC`: Modbus CRC-16, initial value 0xFFFF,
polynomial 0xA001, LSB first, over all bytes. -/
def calculateCRC (data : List Nat) : Nat :=
  data.foldl (fun crc byte => crcRounds 8 (crc ^^^ byte)) 0xFFFF

/-- `ModbusFrame::appendCRC`: append the CRC of the frame, little-endian
(LSB first, MSB second). -/
def appendCRC (frame : List Nat) : List Nat :=
  let crc := calculateCRC frame
  frame ++ [crc &&& 0xFF, (crc >>> 8) &&& 0xFF]

/-- `ModbusFrame::buildFrame`: slave address, function code, data, CRC. -/
def buildFrame (slave_address function_code : Nat) (data : List Nat) : List Nat :=
  appendCRC ([slave_address, function_code] ++ data)

/-- The data bytes pushed by `ModbusFrame::createReadFrame`
(start address big-endian, then register count big-endian). -/
def readFrameData (start_address num_registers : Nat) : List Nat :=
  [(start_address >>> 8) &&& 0xFF, start_address &&& 0xFF,
   (num_registers >>> 8) &&& 0xFF, num_registers &&& 0xFF]

/-- Byte-level content of the frame built by `ModbusFrame::createReadFrame`
(function code 0x03).  The source performs no validation of `num_registers`. -/
def createReadFrameBytes (slave_address start_address num_registers : Nat) : List Nat :=
  buildFrame slave_address 0x03 (readFrameData start_address num_registers)

/-- Byte-level content of the frame built by `ModbusFrame::createWriteFrame`
(function code 0x06). -/
def createWriteFrameBytes (slave_address register_address value : Nat) : List Nat :=
  buildFrame slave_address 0x06
    [(register_address >>> 8) &&& 0xFF, register_address &&& 0xFF,
     (value >>> 8) &&& 0xFF, value &&& 0xFF]

/-- `ModbusFrame::valueToHexChar` (upper-case hex digit). -/
def valueToHexChar (value : Nat) : Char :=
  if value < 10 then Char.ofNat (48 + value) else Char.ofNat (65 + (value - 10))

/-- Two-digit upper-case hex rendering of one byte
(`std::setw(2) << std::setfill('0') << std::hex << std::uppercase`). -/
def byteToHex (byte : Nat) : List Char :=
  [valueToHexChar (byte / 16), valueToHexChar (byte % 16)]

/-- `ModbusFrame::bytesToHex`. -/
def bytesToHex (data : List Nat) : String :=
  String.mk (data.map byteToHex).flatten

/-- `ModbusFrame::createReadFrame` (returns the frame as an upper-case hex string). -/
def createReadFrame (slave_address start_address num_registers : Nat) : String :=
  bytesToHex (createReadFrameBytes slave_address start_address num_registers)

/-- `ModbusFrame::createWriteFrame`. -/
def createWriteFrame (slave_address register_address value : Nat) : String :=
  bytesToHex (createWriteFrameBytes slave_address register_address value)

/-- `ModbusFrame::isValidHexChar`. -/
def isValidHexChar (c : Char) : Bool :=
  (48 ≤ c.toNat && c.toNat ≤ 57) || (65 ≤ c.toNat && c.toNat ≤ 70) ||
    (97 ≤ c.toNat && c.toNat ≤ 102)

/-- `ModbusFrame::hexCharToValue`. -/
def hexCharToValue (c : Char) : Nat :=
  if 48 ≤ c.toNat ∧ c.toNat ≤ 57 then c.toNat - 48
  else if 65 ≤ c.toNat ∧ c.toNat ≤ 70 then c.toNat - 65 + 10
  else if 97 ≤ c.toNat ∧ c.toNat ≤ 102 then c.toNat - 97 + 10
  else 0

/-- Pairwise decoding loop of `ModbusFrame::hexToBytes`; `none` models the
`ValidationException` thrown on an odd-length string or an invalid character. -/
def hexPairsToBytes : List Char → Option (List Nat)
  | [] => some []
  | [_] => none
  | hi :: lo :: rest =>
    if isValidHexChar hi && isValidHexChar lo then
      (hexPairsToBytes rest).map (fun bs => ((hexCharToValue hi) <<< 4 ||| hexCharToValue lo) :: bs)
    else none

/-- `ModbusFrame::hexToBytes`. -/
def hexToBytes (hex_string : String) : Option (List Nat) :=
  hexPairsToBytes hex_string.data

/-- `ModbusFrame::validateFrame`: at least 5 bytes, and the little-endian CRC
trailer matches the CRC of the preceding bytes. -/
def validateFrame (frame_bytes : List Nat) : Bool :=
  if frame_bytes.length < 5 then false
  else
    let received_crc := frame_bytes.getD (frame_bytes.length - 2) 0 |||
      ((frame_bytes.getD (frame_bytes.length - 1) 0) <<< 8)
    let calculated_crc := calculateCRC (frame_bytes.take (frame_bytes.length - 2))
    received_crc == calculated_crc

/-- `ecoWatt::ModbusResponse` (`types.hpp`). -/
structure ModbusResponse where
  slave_address : Nat
  function_code : Nat
  data : List Nat
  is_error : Bool := false
  error_code : Nat := 0
deriving Repr, DecidableEq

/-- `ModbusFrame::parseResponse`; `Except.error` models the `ModbusException`
thrown on an empty / non-hex / short / CRC-invalid frame. -/
def parseResponse (frame_hex : String) : Except String ModbusResponse :=
  if frame_hex.isEmpty then .error "Empty response frame"
  else
    match hexToBytes frame_hex with
    | none => .error "Invalid hex frame"
    | some frame_bytes =>
      if frame_bytes.length < 5 then .error "Frame too short (minimum 5 bytes required)"
      else if !validateFrame frame_bytes then .error "CRC validation failed"
      else
        let slave_addr := frame_bytes.getD 0 0
        let function_code := frame_bytes.getD 1 0
        if function_code &&& 0x80 ≠ 0 then
          .ok { slave_address := slave_addr, function_code := function_code &&& 0x7F,
                data := [], is_error := true, error_code := frame_bytes.getD 2 0 }
        else if function_code = 0x03 then
          if frame_bytes.length < 4 then .error "Read response too short"
          else
            let byte_count := frame_bytes.getD 2 0
            if frame_bytes.length < 3 + byte_count + 2 then
              .error "Frame size mismatch with byte count"
            else
              .ok { slave_address := slave_addr, function_code := function_code,
                    data := (frame_bytes.drop 3).take byte_count }
        else
          .ok { slave_address := slave_addr, function_code := function_code,
                data := ((frame_bytes.take (frame_bytes.length - 2)).drop 2) }

/-- `ProtocolAdapter::parseRegisterValues`: big-endian 16-bit words; the data
length must be even. -/
def regWords : List Nat → List Nat
  | b0 :: b1 :: rest => ((b0 <<< 8) ||| b1) :: regWords rest
  | _ => []

/-- `ProtocolAdapter::parseRegisterValues` including its length check. -/
def parseRegisterValues (data : List Nat) : Except String (List Nat) :=
  if data.length % 2 ≠ 0 then .error "Invalid data length for register values"
  else .ok (regWords data)

/-! ### Protocol adapter: `protocol_adapter.cpp`

The HTTP transport is modelled as an oracle mapping the request frame (hex
string) and the zero-based attempt index to the `HttpResponse` the transport
would produce for that attempt.  Time (delays, response times) is not
modelled; the `average_response_time` statistic is therefore omitted. -/

/-- Body of an HTTP response as seen through `nlohmann::json`:
either not parseable as JSON (`invalid`), or a JSON document from which the
`frame` field is either absent (`obj none`) or a string (`obj (some f)`). -/
inductive JsonBody where
  | invalid
  | obj (frame : Option String)
deriving Repr, DecidableEq

/-- `ecoWatt::HttpResponse` (status code and body). -/
structure HttpResponse where
  status_code : Nat
  body : JsonBody
deriving Repr, DecidableEq

/-- `HttpResponse::isSuccess`: `status_code >= 200 && status_code < 300`. -/
def HttpResponse.isSuccess (r : HttpResponse) : Bool :=
  200 ≤ r.status_code && r.status_code < 300

/-- One iteration of the `try` block in `ProtocolAdapter::sendRequest`:
POST the payload, check the status, parse the JSON body, extract the `frame`
field; `Except.error` models the `HttpException`s caught by the retry loop. -/
def tryAttempt (response : HttpResponse) : Except String String :=
  if response.isSuccess then
    match response.body with
    | .invalid => .error "Invalid JSON response"
    | .obj frameField =>
      let response_frame := frameField.getD ""
      if response_frame ≠ "" then .ok response_frame
      else .error "Empty frame in response"
  else .error "HTTP request failed"

/-- `ProtocolAdapter::CommunicationStats` (response-time average omitted,
time is not modelled). -/
structure CommunicationStats where
  total_requests : Nat := 0
  successful_requests : Nat := 0
  failed_requests : Nat := 0
  retry_attempts : Nat := 0
deriving Repr, DecidableEq

/-- `ProtocolAdapter::updateStats` (counter part). -/
def updateStats (stats : CommunicationStats) (success : Bool) (was_retry : Bool) :
    CommunicationStats :=
  { total_requests := stats.total_requests + 1,
    successful_requests := stats.successful_requests + (if success then 1 else 0),
    failed_requests := stats.failed_requests + (if success then 0 else 1),
    retry_attempts := stats.retry_attempts + (if was_retry then 1 else 0) }

/-- `ecoWatt::ModbusConfig` (the fields the adapter logic uses). -/
structure ModbusConfig where
  slave_address : Nat := 17
  max_retries : Nat := 3
deriving Repr, DecidableEq

/-- The transport oracle: request frame and attempt index to HTTP response. -/
def Transport : Type := String → Nat → HttpResponse

/-- Errors surfaced by the adapter.  The C++ source throws a single
`ModbusException` class; the constructors distinguish its construction sites:
retry exhaustion (`"Request failed after N attempts. Last error: e"`),
a Modbus exception response, the synchronous register-count check, and the
remaining protocol errors (parse failures, count mismatch, write
verification), each carrying the exception message. -/
inductive AdapterError where
  | transportFailure (last_error : String)
  | modbusException (error_code : Nat)
  | invalidCount (num_registers : Nat)
  | protocolError (msg : String)
deriving Repr, DecidableEq

/-- The `while (attempt < max_retries)` loop of `ProtocolAdapter::sendRequest`.
`fuel` is `max_retries - attempt`; the result carries the outcome, the updated
statistics, and the final attempt counter (= number of transport calls made). -/
def sendRequestLoop (transport : Transport) (frame : String) :
    Nat → Nat → String → CommunicationStats →
    Except String String × CommunicationStats × Nat
  | 0, attempt, last_error, stats => (.error last_error, stats, attempt)
  | fuel + 1, attempt, _last_error, stats =>
    match tryAttempt (transport frame attempt) with
    | .ok response_frame => (.ok response_frame, stats, attempt + 1)
    | .error e =>
      let stats' := if attempt > 0 then updateStats stats false true else stats
      sendRequestLoop transport frame fuel (attempt + 1) e stats'

/-- `ProtocolAdapter::sendRequest`: retry loop; on exhaustion the error carries
the last underlying error message. -/
def sendRequest (transport : Transport) (cfg : ModbusConfig) (frame : String)
    (stats : CommunicationStats) : Except String String × CommunicationStats × Nat :=
  sendRequestLoop transport frame cfg.max_retries 0 "" stats

/-- Outcome of one whole adapter operation: result, statistics after the
operation, and the number of transport attempts made. -/
structure OpOutcome (α : Type) where
  result : Except AdapterError α
  stats : CommunicationStats
  attempts : Nat
deriving Repr

instance {ε α : Type} [DecidableEq ε] [DecidableEq α] : DecidableEq (Except ε α) := fun a b =>
  match a, b with
  | .error e, .error e' => decidable_of_iff (e = e') (by simp)
  | .ok x, .ok y => decidable_of_iff (x = y) (by simp)
  | .error _, .ok _ => isFalse (by simp)
  | .ok _, .error _ => isFalse (by simp)

instance {α : Type} [DecidableEq α] : DecidableEq (OpOutcome α) := by
  intro a b
  cases a
  cases b
  rw [OpOutcome.mk.injEq]
  exact inferInstance

/-- Processing of the `sendRequest` outcome in `ProtocolAdapter::readRegisters`
(everything after the retry loop): response parse, error-response check,
register-value decoding, exact-count check; every failure path runs
`updateStats(false, ·)` in a `catch` block, success runs `updateStats(true, ·)`. -/
def readRegistersPost (num_registers : Nat) :
    Except String String × CommunicationStats × Nat → OpOutcome (List Nat)
  | (.error last_error, stats1, n) =>
    ⟨.error (.transportFailure last_error), updateStats stats1 false false, n⟩
  | (.ok response_frame, stats1, n) =>
    match parseResponse response_frame with
    | .error msg => ⟨.error (.protocolError msg), updateStats stats1 false false, n⟩
    | .ok response =>
      if response.is_error then
        ⟨.error (.modbusException response.error_code), updateStats stats1 false false, n⟩
      else
        match parseRegisterValues response.data with
        | .error msg => ⟨.error (.protocolError msg), updateStats stats1 false false, n⟩
        | .ok values =>
          if values.length ≠ num_registers then
            ⟨.error (.protocolError "Register count mismatch"), updateStats stats1 false false, n⟩
          else
            ⟨.ok values, updateStats stats1 true false, n⟩

/-- `ProtocolAdapter::readRegisters`: count check (thrown before the `try`
block, so the statistics are untouched and no transport attempt is made),
frame build, retry loop, then `readRegistersPost`. -/
def readRegisters (transport : Transport) (cfg : ModbusConfig)
    (stats : CommunicationStats) (start_address num_registers : Nat) :
    OpOutcome (List Nat) :=
  if num_registers = 0 ∨ num_registers > 125 then
    ⟨.error (.invalidCount num_registers), stats, 0⟩
  else
    readRegistersPost num_registers
      (sendRequest transport cfg
        (createReadFrame cfg.slave_address start_address num_registers) stats)

/-- The big-endian address echoed in a write response
(`(response.data[0] << 8) | response.data[1]`). -/
def writtenAddr (response : ModbusResponse) : Nat :=
  (response.data.getD 0 0) <<< 8 ||| response.data.getD 1 0

/-- The big-endian value echoed in a write response
(`(response.data[2] << 8) | response.data[3]`). -/
def writtenValue (response : ModbusResponse) : Nat :=
  (response.data.getD 2 0) <<< 8 ||| response.data.getD 3 0

/-- Processing of the `sendRequest` outcome in `ProtocolAdapter::writeRegister`:
response parse, error-response check, and echo verification — the echo is
verified only when the response function code is 0x06 **and** the response
carries at least 4 data bytes. -/
def writeRegisterPost (register_address value : Nat) :
    Except String String × CommunicationStats × Nat → OpOutcome Bool
  | (.error last_error, stats1, n) =>
    ⟨.error (.transportFailure last_error), updateStats stats1 false false, n⟩
  | (.ok response_frame, stats1, n) =>
    match parseResponse response_frame with
    | .error msg => ⟨.error (.protocolError msg), updateStats stats1 false false, n⟩
    | .ok response =>
      if response.is_error then
        ⟨.error (.modbusException response.error_code), updateStats stats1 false false, n⟩
      else
        if response.function_code = 0x06 ∧ 4 ≤ response.data.length then
          if writtenAddr response ≠ register_address ∨ writtenValue response ≠ value then
            ⟨.error (.protocolError "Write verification failed"), updateStats stats1 false false, n⟩
          else ⟨.ok true, updateStats stats1 true false, n⟩
        else ⟨.ok true, updateStats stats1 true false, n⟩

/-- `ProtocolAdapter::writeRegister`: frame build, retry loop, then
`writeRegisterPost`. -/
def writeRegister (transport : Transport) (cfg : ModbusConfig)
    (stats : CommunicationStats) (register_address value : Nat) : OpOutcome Bool :=
  writeRegisterPost register_address value
    (sendRequest transport cfg
      (createWriteFrame cfg.slave_address register_address value) stats)

/-! ### Data model: `types.hpp` -/

/-- `ecoWatt::AcquisitionSample`.  The timestamp is embedded as milliseconds
since epoch (`std::chrono` millisecond resolution); the `double` field
`scaled_value` is embedded as `ℚ`. -/
structure AcquisitionSample where
  timestamp : Nat
  register_address : Nat
  register_name : String
  raw_value : Nat
  scaled_value : ℚ
  unit : String
deriving Repr, DecidableEq

/-- `ecoWatt::RegisterConfig` (the fields the scheduler uses). -/
structure RegisterConfig where
  name : String
  unit : String
  gain : ℚ
deriving Repr, DecidableEq

/-! ### Memory ring store: `data_storage.cpp`, `MemoryDataStorage`

`samples_by_register_` is a `std::map<RegisterAddress, std::deque<...>>`;
`operator[]` default-constructs an empty deque, so the map is embedded as a
total function from addresses to lists (front of the deque = head of the
list).  The constructor starts from an empty map. -/

structure MemoryDataStorage where
  max_samples_per_register : Nat
  samples_by_register : Nat → List AcquisitionSample

/-- A fresh `MemoryDataStorage(max_samples_per_register)`. -/
def MemoryDataStorage.init (max_samples_per_register : Nat) : MemoryDataStorage :=
  ⟨max_samples_per_register, fun _ => []⟩

/-- `MemoryDataStorage::storeSample`: `push_back`, then `pop_front` once if the
deque got longer than the capacity. -/
def MemoryDataStorage.storeSample (st : MemoryDataStorage) (sample : AcquisitionSample) :
    MemoryDataStorage :=
  { st with samples_by_register := fun a =>
      if a = sample.register_address then
        let samples := st.samples_by_register sample.register_address ++ [sample]
        if samples.length > st.max_samples_per_register then samples.tail else samples
      else st.samples_by_register a }

/-- `MemoryDataStorage::storeSamples`. -/
def MemoryDataStorage.storeSamples (st : MemoryDataStorage)
    (samples : List AcquisitionSample) : MemoryDataStorage :=
  samples.foldl MemoryDataStorage.storeSample st

/-- `MemoryDataStorage::clearSamples(register_address, clear_all)`:
`if (clear_all || register_address == 0) samples_by_register_.clear(); else`
clear only that register's deque. -/
def MemoryDataStorage.clearSamples (st : MemoryDataStorage) (register_address : Nat)
    (clear_all : Bool) : MemoryDataStorage :=
  if clear_all || register_address == 0 then
    { st with samples_by_register := fun _ => [] }
  else
    { st with samples_by_register := fun a =>
        if a = register_address then [] else st.samples_by_register a }

/-! ### Durable store: `data_storage.cpp`, `SQLiteDataStorage`

The `samples` table is embedded as the list of its rows in insertion
(rowid) order.  `storeSample` binds only `register_address`, `value`
(the raw value, as a `REAL`) and `timestamp` — the name, scaled value and
unit of the sample are not persisted. -/

/-- One row of the `samples` table (`register_address`, `value`, `timestamp`).
A `uint16_t` raw value round-trips exactly through the `REAL` column, so the
value is kept as `Nat`. -/
structure SampleRow where
  register_address : Nat
  value : Nat
  timestamp : Nat
deriving Repr, DecidableEq

/-- `SQLiteDataStorage::storeSample`: INSERT of (address, raw value, timestamp). -/
def sqliteStoreSample (db : List SampleRow) (sample : AcquisitionSample) : List SampleRow :=
  db ++ [⟨sample.register_address, sample.raw_value, sample.timestamp⟩]

/-- Stable insertion for `ORDER BY timestamp DESC`: a new row goes after every
already-placed row with a timestamp ≥ its own (SQLite returns equal keys in
scan order here). -/
def insertDescByTimestamp (r : SampleRow) : List SampleRow → List SampleRow
  | [] => [r]
  | x :: xs => if r.timestamp ≤ x.timestamp then x :: insertDescByTimestamp r xs
               else r :: x :: xs

/-- The rows of `SELECT ... WHERE register_address = ? ORDER BY timestamp DESC`. -/
def sqliteRowsDesc (db : List SampleRow) (register_address : Nat) : List SampleRow :=
  (db.filter (fun r => r.register_address == register_address)).foldl
    (fun acc r => insertDescByTimestamp r acc) []

/-- Reconstruction of an `AcquisitionSample` from a row in
`SQLiteDataStorage::getSamples`: only `register_address`, `raw_value` and
`timestamp` are set; `register_name` and `unit` are default-constructed
(empty) strings, and `scaled_value` is left uninitialized — it is modelled by
the unconstrained parameter `junk`. -/
def rowToSample (junk : ℚ) (r : SampleRow) : AcquisitionSample :=
  { timestamp := r.timestamp, register_address := r.register_address,
    register_name := "", raw_value := r.value, scaled_value := junk, unit := "" }

/-- `SQLiteDataStorage::getSamples(register_address, count)`: newest-first,
`LIMIT count` when `count > 0`. -/
def sqliteGetSamples (junk : ℚ) (db : List SampleRow) (register_address count : Nat) :
    List AcquisitionSample :=
  let sorted := sqliteRowsDesc db register_address
  let limited := if count > 0 then sorted.take count else sorted
  limited.map (rowToSample junk)

/-! ### Acquisition scheduler: `acquisition_scheduler_new.cpp`

The scheduler calls `protocol_adapter_->readHoldingRegisters(addr, 1)`, a
`ModbusResponse`-returning adapter operation whose implementation is not part
of the sources (only this caller and test mocks exist).  It is modelled from
the spec below.  The gateway is abstracted as an oracle from
(start address, quantity) to the raw response frame it would deliver, `none`
standing for a transport failure surviving the retry loop. -/

/-- Modelled from the spec: the response-parsing contract of §4.A for a
read-holding-registers operation, as used by the missing
`ProtocolAdapter::readHoldingRegisters`.  On top of `parseResponse` (the
in-source codec), an exception response is returned as-is, and otherwise the
spec requires function code 0x03 with `byte_count` equal to `2·N` for the
expected register count `N`; any other shape is a parse failure. -/
def specParseRead (expected : Nat) (frame_hex : String) : Except String ModbusResponse :=
  match parseResponse frame_hex with
  | .error e => .error e
  | .ok r =>
    if r.is_error then .ok r
    else if r.function_code = 0x03 ∧ r.data.length = 2 * expected then .ok r
    else .error "Read response byte count mismatch"

/-- Modelled from the spec: `ProtocolAdapter::readHoldingRegisters(start, N)`
(absent from the sources; declared by callers and mocks only) — build the
read frame, run the retry-wrapped exchange (abstracted by the `gateway`
oracle), parse the response under the §4.A read contract. -/
def readHoldingRegisters (gateway : Nat → Nat → Option String)
    (start_address quantity : Nat) : Except String ModbusResponse :=
  match gateway start_address quantity with
  | none => .error "Request failed after retries"
  | some frame_hex => specParseRead quantity frame_hex

/-- `AcquisitionScheduler::readSingleRegister`: one single-register read;
`none` models the `nullptr` returned on any error (exceptions are caught).
`register_configs` is the scheduler's `std::map` snapshot as an association
list in its iteration order; `now` is the sample timestamp. -/
def readSingleRegister (gateway : Nat → Nat → Option String)
    (register_configs : List (Nat × RegisterConfig)) (now : Nat) (address : Nat) :
    Option AcquisitionSample :=
  match readHoldingRegisters gateway address 1 with
  | .error _ => none
  | .ok response =>
    if response.is_error || response.data.isEmpty then none
    else
      let value := (response.data.getD 0 0) <<< 8 ||| response.data.getD 1 0
      let cfg? := (register_configs.find? (fun p => p.fst == address)).map Prod.snd
      let name := match cfg? with | some c => c.name | none => "Unknown"
      let unit := match cfg? with | some c => c.unit | none => ""
      let gain : ℚ := match cfg? with | some c => c.gain | none => 1
      let scaled : ℚ := if gain ≠ 0 then (value : ℚ) / gain else (value : ℚ)
      some { timestamp := now, register_address := address, register_name := name,
             raw_value := value, scaled_value := scaled, unit := unit }

/-- `AcquisitionScheduler::readMultipleRegisters`: sequential single reads,
failures skipped. -/
def readMultipleRegisters (gateway : Nat → Nat → Option String)
    (register_configs : List (Nat × RegisterConfig)) (now : Nat)
    (addresses : List Nat) : List AcquisitionSample :=
  addresses.filterMap (readSingleRegister gateway register_configs now)

/-- The address list assembled by `AcquisitionScheduler::performPollCycle`:
all keys of `register_configs_` (in `std::map` iteration order), then each
minimum register that is not already present, appended in order. -/
def pollCycleAddresses (register_configs : List (Nat × RegisterConfig))
    (minimum_registers : List Nat) : List Nat :=
  minimum_registers.foldl
    (fun acc addr => if addr ∈ acc then acc else acc ++ [addr])
    (register_configs.map Prod.fst)

/-- The samples read (and published, in this order) by one
`AcquisitionScheduler::performPollCycle`. -/
def performPollCycleSamples (gateway : Nat → Nat → Option String)
    (register_configs : List (Nat × RegisterConfig))
    (minimum_registers : List Nat) (now : Nat) : List AcquisitionSample :=
  readMultipleRegisters gateway register_configs now
    (pollCycleAddresses register_configs minimum_registers)

/-! ### Helper lemmas about the CRC and frame trailer -/

theorem crcStep_lt {crc : Nat} (h : crc < 65536) : crcStep crc < 65536 := by
  have hs : crc >>> 1 < 65536 := by
    rw [Nat.shiftRight_eq_div_pow]
    have : crc / 2 ^ 1 ≤ crc := Nat.div_le_self _ _
    omega
  unfold crcStep
  split
  · have h16 : (65536 : Nat) = 2 ^ 16 := by norm_num
    rw [h16] at hs ⊢
    exact Nat.xor_lt_two_pow hs (by norm_num)
  · exact hs

theorem crcRounds_lt {crc : Nat} (n : Nat) (h : crc < 65536) : crcRounds n crc < 65536 := by
  induction n generalizing crc with
  | zero => exact h
  | succ n ih => exact ih (crcStep_lt h)

theorem calculateCRC_lt {data : List Nat} (hb : ∀ b ∈ data, b < 65536) :
    calculateCRC data < 65536 := by
  unfold calculateCRC
  have main : ∀ (l : List Nat) (crc : Nat), crc < 65536 → (∀ b ∈ l, b < 65536) →
      l.foldl (fun crc byte => crcRounds 8 (crc ^^^ byte)) crc < 65536 := by
    intro l
    induction l with
    | nil => intro crc h _; exact h
    | cons b rest ih =>
      intro crc h hl
      have hb' : b < 65536 := hl b (List.mem_cons_self _ _)
      have hx : crc ^^^ b < 65536 := by
        have h16 : (65536 : Nat) = 2 ^ 16 := by norm_num
        rw [h16] at h hb' ⊢
        exact Nat.xor_lt_two_pow h hb'
      exact ih _ (crcRounds_lt 8 hx) (fun x hx' => hl x (List.mem_cons_of_mem _ hx'))
  exact main data 0xFFFF (by norm_num) hb

theorem lor_shiftLeft_recompose {c : Nat} (h : c < 65536) :
    (c &&& 0xFF) ||| (((c >>> 8) &&& 0xFF) <<< 8) = c := by
  have h1 : c &&& 0xFF = c % 256 := by
    have := Nat.and_pow_two_sub_one_eq_mod c 8
    norm_num at this
    exact this
  have h2 : c >>> 8 = c / 256 := by
    rw [Nat.shiftRight_eq_div_pow]
  have hdiv : c / 256 < 256 := by omega
  have h3 : (c / 256) &&& 0xFF = c / 256 := by
    have := Nat.and_pow_two_sub_one_eq_mod (c / 256) 8
    norm_num at this
    rw [this]
    exact Nat.mod_eq_of_lt hdiv
  have h4 : (c / 256) <<< 8 = 2 ^ 8 * (c / 256) := by
    rw [Nat.shiftLeft_eq]; ring
  rw [h1, h2, h3, h4]
  have hm : c % 256 < 2 ^ 8 :=
    lt_of_lt_of_le (Nat.mod_lt _ (by norm_num)) (by norm_num)
  have h5 := Nat.mul_add_lt_is_or (i := 8) (b := c % 256) hm (c / 256)
  rw [Nat.lor_comm, ← h5]
  have h6 := Nat.div_add_mod c 256
  norm_num
  omega

theorem validate_appendCRC (pre : List Nat) (h3 : 3 ≤ pre.length)
    (hb : ∀ b ∈ pre, b < 65536) : validateFrame (appendCRC pre) = true := by
  unfold appendCRC validateFrame
  have hcrc : calculateCRC pre < 65536 := calculateCRC_lt hb
  set c := calculateCRC pre with hc
  have hlen : (pre ++ [c &&& 0xFF, c >>> 8 &&& 0xFF]).length = pre.length + 2 := by
    simp
  rw [hlen]
  have hnotlt : ¬(pre.length + 2 < 5) := by omega
  rw [if_neg hnotlt]
  have htake : (pre ++ [c &&& 0xFF, c >>> 8 &&& 0xFF]).take (pre.length + 2 - 2) = pre := by
    have : pre.length + 2 - 2 = pre.length := by omega
    rw [this, List.take_left]
  have hget1 : (pre ++ [c &&& 0xFF, c >>> 8 &&& 0xFF]).getD (pre.length + 2 - 2) 0
      = c &&& 0xFF := by
    have h' : pre.length + 2 - 2 = pre.length := by omega
    rw [h', List.getD_eq_getElem?_getD, List.getElem?_append_right (Nat.le_refl _)]
    simp
  have hget2 : (pre ++ [c &&& 0xFF, c >>> 8 &&& 0xFF]).getD (pre.length + 2 - 1) 0
      = c >>> 8 &&& 0xFF := by
    have h' : pre.length + 2 - 1 = pre.length + 1 := by omega
    rw [h', List.getD_eq_getElem?_getD, List.getElem?_append_right (by omega)]
    have h'' : pre.length + 1 - pre.length = 1 := by omega
    rw [h'']
    simp
  rw [hget1, hget2, htake, ← hc, lor_shiftLeft_recompose hcrc]
  simp

theorem loByte_eq (x : Nat) : x &&& 0xFF = x % 256 := by
  have := Nat.and_pow_two_sub_one_eq_mod x 8
  norm_num at this
  exact this

theorem hiByte_eq {x : Nat} (h : x < 65536) : (x >>> 8) &&& 0xFF = x / 256 := by
  rw [Nat.shiftRight_eq_div_pow, loByte_eq]
  have : x / 2 ^ 8 < 256 := by norm_num; omega
  rw [Nat.mod_eq_of_lt this]
  norm_num

/-- C1 (amended): for every slave address, start address and register count in
range, `createReadFrame` emits the 8-byte frame
`[slave, 0x03, start_hi, start_lo, count_hi, count_lo, crc_lo, crc_hi]` with
the Modbus CRC-16 of the first six bytes appended little-endian, the emitted
frame passes `validateFrame`, and the concrete frame for
`(0x11, 0x0000, 2)` is the upper-case hex string `"110300000002C69B"`
(CRC value 0x9BC6, hence trailer bytes C6 9B). -/
theorem c1_read_frame_layout (slave addr cnt : Nat)
    (hs : slave < 256) (ha : addr < 65536) (hc : cnt < 65536) :
    createReadFrameBytes slave addr cnt =
      [slave, 0x03, addr / 256, addr % 256, cnt / 256, cnt % 256] ++
        [calculateCRC [slave, 0x03, addr / 256, addr % 256, cnt / 256, cnt % 256] % 256,
         calculateCRC [slave, 0x03, addr / 256, addr % 256, cnt / 256, cnt % 256] / 256] ∧
    validateFrame (createReadFrameBytes slave addr cnt) = true ∧
    createReadFrame 0x11 0x0000 2 = "110300000002C69B" := by
  have hpayload : [slave, 0x03] ++ readFrameData addr cnt =
      [slave, 0x03, addr / 256, addr % 256, cnt / 256, cnt % 256] := by
    simp [readFrameData, hiByte_eq ha, hiByte_eq hc, loByte_eq]
  have hframe : createReadFrameBytes slave addr cnt =
      appendCRC [slave, 0x03, addr / 256, addr % 256, cnt / 256, cnt % 256] := by
    unfold createReadFrameBytes buildFrame
    rw [hpayload]
  have hbytes : ∀ b ∈ [slave, 0x03, addr / 256, addr % 256, cnt / 256, cnt % 256],
      b < 65536 := by
    intro b hb
    simp at hb
    have h1 : addr / 256 < 65536 := lt_of_le_of_lt (Nat.div_le_self _ _) ha
    have h2 : cnt / 256 < 65536 := lt_of_le_of_lt (Nat.div_le_self _ _) hc
    have h3 : addr % 256 < 256 := Nat.mod_lt _ (by norm_num)
    have h4 : cnt % 256 < 256 := Nat.mod_lt _ (by norm_num)
    rcases hb with h | h | h | h | h | h <;> omega
  have hcrc : calculateCRC [slave, 0x03, addr / 256, addr % 256, cnt / 256, cnt % 256]
      < 65536 := calculateCRC_lt hbytes
  refine ⟨?_, ?_, by decide⟩
  · rw [hframe]
    simp only [appendCRC]
    rw [loByte_eq, hiByte_eq hcrc]
  · rw [hframe]
    exact validate_appendCRC _ (by simp) hbytes

/-- C1 (counterexample): the concrete read frame for `(0x11, 0x0000, 2)` is
`"110300000002C69B"`, not the `"1103000000029BC6"` stated by the claim (the
claim's string carries the CRC 0x9BC6 big-endian, contradicting the
little-endian append the code performs). -/
theorem c1_counterexample :
    createReadFrame 0x11 0x0000 2 = "110300000002C69B" ∧
    createReadFrame 0x11 0x0000 2 ≠ "1103000000029BC6" := by
  constructor
  · decide
  · decide

/-- C1 witness: the layout/validation theorem instantiated at
`(0x11, 0x0000, 2)`. -/
theorem c1_read_frame_layout_witness :
    (17 < 256 ∧ 0 < 65536 ∧ 2 < 65536) ∧
    (createReadFrameBytes 17 0 2 =
      [17, 0x03, 0 / 256, 0 % 256, 2 / 256, 2 % 256] ++
        [calculateCRC [17, 0x03, 0 / 256, 0 % 256, 2 / 256, 2 % 256] % 256,
         calculateCRC [17, 0x03, 0 / 256, 0 % 256, 2 / 256, 2 % 256] / 256] ∧
    validateFrame (createReadFrameBytes 17 0 2) = true ∧
    createReadFrame 0x11 0x0000 2 = "110300000002C69B") :=
  ⟨⟨by norm_num, by norm_num, by norm_num⟩,
    c1_read_frame_layout 17 0 2 (by norm_num) (by norm_num) (by norm_num)⟩

/-- C5 (counterexample): `ModbusFrame::createReadFrame` performs no validation
of the register count.  For count 0 it does not fail with anything — it emits
a well-formed, CRC-valid 8-byte frame. -/
theorem c5_counterexample :
    createReadFrame 0x11 0x0000 0 = "110300000000475A" ∧
    (createReadFrameBytes 0x11 0x0000 0).length = 8 ∧
    validateFrame (createReadFrameBytes 0x11 0x0000 0) = true := by
  refine ⟨by decide, by decide, by decide⟩

/-- C5 (amended): the `1 ≤ count ≤ 125` range check is enforced not by the
frame codec but by `ProtocolAdapter::readRegisters`, which rejects count 0 or
count > 125 synchronously — before building a frame, before any transport
attempt, and without touching the statistics; the codec itself builds an
8-byte frame for every count. -/
theorem c5_adapter_count_check (transport : Transport) (cfg : ModbusConfig)
    (stats : CommunicationStats) (start_address num_registers : Nat)
    (h : num_registers = 0 ∨ 125 < num_registers) :
    readRegisters transport cfg stats start_address num_registers =
      ⟨.error (.invalidCount num_registers), stats, 0⟩ ∧
    (createReadFrameBytes cfg.slave_address start_address num_registers).length = 8 := by
  constructor
  · unfold readRegisters
    rw [if_pos h]
  · simp [createReadFrameBytes, buildFrame, appendCRC, readFrameData]

/-- C5 witness: the count check at count 126 with an always-500 transport. -/
theorem c5_adapter_count_check_witness :
    (126 = 0 ∨ 125 < 126) ∧
    (readRegisters (fun _ _ => ⟨500, .invalid⟩) {} {} 0 126 =
      ⟨.error (.invalidCount 126), {}, 0⟩ ∧
    (createReadFrameBytes ({} : ModbusConfig).slave_address 0 126).length = 8) :=
  ⟨Or.inr (by norm_num),
    c5_adapter_count_check (fun _ _ => ⟨500, .invalid⟩) {} {} 0 126 (Or.inr (by norm_num))⟩

/-! ### Ring-buffer lemmas for the memory store -/

/-- The `n` most recent elements (the length-`n` suffix) of a list. -/
def lastN {α : Type _} (n : Nat) (l : List α) : List α := l.drop (l.length - n)

theorem lastN_length {α : Type _} (n : Nat) (l : List α) :
    (lastN n l).length = min n l.length := by
  simp [lastN]
  omega

theorem lastN_of_le {α : Type _} {n : Nat} {l : List α} (h : l.length ≤ n) :
    lastN n l = l := by
  simp [lastN, Nat.sub_eq_zero_of_le h]

theorem lastN_push {α : Type _} (cap : Nat) (F : List α) (s : α) :
    (if (lastN cap F ++ [s]).length > cap then (lastN cap F ++ [s]).tail
     else lastN cap F ++ [s]) = lastN cap (F ++ [s]) := by
  rcases Nat.eq_zero_or_pos cap with hcap | hcap
  · subst hcap
    have h1 : lastN 0 F = ([] : List α) := by simp [lastN]
    have h2 : lastN 0 (F ++ [s]) = ([] : List α) := by simp [lastN]
    rw [h1, h2]
    simp
  · by_cases hlen : F.length < cap
    · have h1 : lastN cap F = F := lastN_of_le (by omega)
      have h2 : lastN cap (F ++ [s]) = F ++ [s] := lastN_of_le (by simp; omega)
      rw [h1, h2, if_neg (by simp; omega)]
    · push_neg at hlen
      have hlfn : (lastN cap F).length = cap := by rw [lastN_length]; omega
      have hcond : (lastN cap F ++ [s]).length > cap := by simp [hlfn]
      rw [if_pos hcond]
      have hL : lastN cap F ++ [s] = F.drop (F.length - cap) ++ [s] := rfl
      rw [hL, ← List.drop_one, List.drop_append_eq_append_drop]
      have hdlen : (F.drop (F.length - cap)).length = cap := by simp; omega
      rw [hdlen, List.drop_one, List.tail_drop]
      have hz : 1 - cap = 0 := by omega
      rw [hz, List.drop_zero]
      show F.drop (F.length - cap + 1) ++ [s] = lastN cap (F ++ [s])
      unfold lastN
      rw [List.drop_append_eq_append_drop]
      have hi : (F ++ [s]).length - cap = F.length - cap + 1 := by simp; omega
      have hj : F.length - cap + 1 - F.length = 0 := by omega
      rw [hi, hj, List.drop_zero]

theorem storeSamples_max (st : MemoryDataStorage) (l : List AcquisitionSample) :
    (st.storeSamples l).max_samples_per_register = st.max_samples_per_register := by
  induction l generalizing st with
  | nil => rfl
  | cons s rest ih =>
    unfold MemoryDataStorage.storeSamples at *
    simp only [List.foldl_cons]
    exact ih _

theorem storeSamples_ring (cap addr : Nat) (samples : List AcquisitionSample) :
    ((MemoryDataStorage.init cap).storeSamples samples).samples_by_register addr =
      lastN cap (samples.filter (fun s => s.register_address == addr)) := by
  induction samples using List.reverseRecOn with
  | nil =>
    simp [MemoryDataStorage.storeSamples, MemoryDataStorage.init, lastN]
  | append_singleton l s ih =>
    have hmax := storeSamples_max (MemoryDataStorage.init cap) l
    unfold MemoryDataStorage.storeSamples at *
    rw [List.foldl_append, List.foldl_cons, List.foldl_nil, List.filter_append]
    set st := l.foldl MemoryDataStorage.storeSample (MemoryDataStorage.init cap) with hst
    simp only [MemoryDataStorage.storeSample]
    by_cases h : addr = s.register_address
    · have hfs : List.filter (fun s => s.register_address == addr) [s] = [s] := by
        have hbeq : (s.register_address == addr) = true := beq_iff_eq.mpr h.symm
        simp [List.filter, hbeq]
      rw [hfs, if_pos h, hmax, ← h]
      rw [ih]
      exact lastN_push cap (List.filter (fun s => s.register_address == addr) l) s
    · have hfs : List.filter (fun s => s.register_address == addr) [s] = [] := by
        have hbeq : (s.register_address == addr) = false :=
          beq_eq_false_iff_ne.mpr (fun hc => h hc.symm)
        simp [List.filter, hbeq]
      rw [hfs, List.append_nil, if_neg h]
      exact ih

/-- C6: for every sequence of `storeSample` calls on a fresh memory store and
every register address, the per-address deque never exceeds the configured
capacity and holds exactly the most recently stored samples for that address
(oldest discarded first); in particular, with capacity 5 and 20 stores for
address 0, exactly the last 5 stored samples remain. -/
theorem c6_ring_capacity_eviction (samples : List AcquisitionSample) (cap addr : Nat) :
    (((MemoryDataStorage.init cap).storeSamples samples).samples_by_register addr).length
        ≤ cap ∧
    ((MemoryDataStorage.init cap).storeSamples samples).samples_by_register addr =
      lastN cap (samples.filter (fun s => s.register_address == addr)) ∧
    ((MemoryDataStorage.init 5).storeSamples
        ((List.range 20).map (fun i =>
          ⟨1000 + i, 0, "Reg0", i, (i : ℚ), ""⟩))).samples_by_register 0 =
      ((List.range 20).map (fun i =>
          (⟨1000 + i, 0, "Reg0", i, (i : ℚ), ""⟩ : AcquisitionSample))).drop 15 := by
  refine ⟨?_, storeSamples_ring cap addr samples, ?_⟩
  · rw [storeSamples_ring cap addr samples, lastN_length]
    omega
  · rw [storeSamples_ring 5 0]
    have hall : ((List.range 20).map (fun i =>
        (⟨1000 + i, 0, "Reg0", i, (i : ℚ), ""⟩ : AcquisitionSample))).filter
          (fun s => s.register_address == 0) =
        (List.range 20).map (fun i =>
          (⟨1000 + i, 0, "Reg0", i, (i : ℚ), ""⟩ : AcquisitionSample)) := by
      apply List.filter_eq_self.mpr
      intro s hs
      simp at hs
      obtain ⟨i, _, rfl⟩ := hs
      rfl
    rw [hall]
    unfold lastN
    congr 1

/-- C10: `MemoryDataStorage::clearSamples` with `register_address = 0` and
`clear_all = false` clears every register's samples (address 0 is
indistinguishable from clear-all), while for a nonzero address only that
register is cleared and every other register is untouched. -/
theorem c10_clear_semantics (st : MemoryDataStorage) (a b : Nat) :
    ((st.clearSamples 0 false).samples_by_register b = []) ∧
    (a ≠ 0 →
      (st.clearSamples a false).samples_by_register a = [] ∧
      (b ≠ a → (st.clearSamples a false).samples_by_register b =
        st.samples_by_register b)) := by
  constructor
  · simp [MemoryDataStorage.clearSamples]
  · intro ha
    have hcond : (false || a == 0) = false := by
      simp only [Bool.false_or]
      exact beq_eq_false_iff_ne.mpr ha
    constructor
    · simp [MemoryDataStorage.clearSamples, hcond]
    · intro hb
      simp [MemoryDataStorage.clearSamples, hcond, hb]

/-- A two-register store used to witness the clear-samples semantics. -/
def clearWitnessStore : MemoryDataStorage :=
  ⟨3, fun a =>
    if a = 1 then [⟨10, 1, "Voltage", 2300, 230, "V"⟩]
    else if a = 2 then [⟨11, 2, "Current", 450, (45 : ℚ) / 10, "A"⟩]
    else []⟩

/-- C10 witness: clearing address 0 wipes address 2's samples; clearing
address 1 wipes only address 1 and leaves address 2 untouched. -/
theorem c10_clear_semantics_witness :
    ((clearWitnessStore.clearSamples 0 false).samples_by_register 2 = []) ∧
    ((clearWitnessStore.clearSamples 1 false).samples_by_register 1 = []) ∧
    ((clearWitnessStore.clearSamples 1 false).samples_by_register 2 =
      clearWitnessStore.samples_by_register 2) :=
  ⟨(c10_clear_semantics clearWitnessStore 1 2).1,
    ((c10_clear_semantics clearWitnessStore 1 2).2 (by decide)).1,
    ((c10_clear_semantics clearWitnessStore 1 2).2 (by decide)).2 (by decide)⟩

/-! ### Retry-loop lemmas -/

/-- Statistics after `k` failed retry iterations inside the retry loop
(each one increments total, failed and retry counters). -/
def retryFailStats (stats : CommunicationStats) (k : Nat) : CommunicationStats :=
  ⟨stats.total_requests + k, stats.successful_requests,
   stats.failed_requests + k, stats.retry_attempts + k⟩

theorem sendRequestLoop_attempts_le (transport : Transport) (frame : String) :
    ∀ (fuel attempt : Nat) (lastErr : String) (stats : CommunicationStats),
      (sendRequestLoop transport frame fuel attempt lastErr stats).2.2 ≤ attempt + fuel := by
  intro fuel
  induction fuel with
  | zero =>
    intro attempt lastErr stats
    simp [sendRequestLoop]
  | succ fuel ih =>
    intro attempt lastErr stats
    unfold sendRequestLoop
    split
    next f heq =>
      simp
    next e heq =>
      dsimp only
      have := ih (attempt + 1) e (if attempt > 0 then updateStats stats false true else stats)
      omega

theorem sendRequestLoop_attempts_ge (transport : Transport) (frame : String) :
    ∀ (fuel attempt : Nat) (lastErr : String) (stats : CommunicationStats),
      attempt ≤ (sendRequestLoop transport frame fuel attempt lastErr stats).2.2 := by
  intro fuel
  induction fuel with
  | zero =>
    intro attempt lastErr stats
    simp [sendRequestLoop]
  | succ fuel ih =>
    intro attempt lastErr stats
    unfold sendRequestLoop
    split
    next f heq =>
      simp
    next e heq =>
      dsimp only
      have := ih (attempt + 1) e (if attempt > 0 then updateStats stats false true else stats)
      omega

theorem sendRequestLoop_first_ok (transport : Transport) (frame : String)
    (fuel attempt : Nat) (lastErr : String) (stats : CommunicationStats)
    (f : String) (h : tryAttempt (transport frame attempt) = .ok f) :
    sendRequestLoop transport frame (fuel + 1) attempt lastErr stats =
      (.ok f, stats, attempt + 1) := by
  unfold sendRequestLoop
  rw [h]

theorem sendRequestLoop_all_fail (transport : Transport) (frame : String)
    (errAt : Nat → String)
    (hfail : ∀ i, tryAttempt (transport frame i) = .error (errAt i)) :
    ∀ (fuel attempt : Nat) (lastErr : String) (stats : CommunicationStats), 1 ≤ fuel →
      sendRequestLoop transport frame fuel attempt lastErr stats =
        (.error (errAt (attempt + fuel - 1)),
         retryFailStats stats (fuel - (if attempt = 0 then 1 else 0)),
         attempt + fuel) := by
  intro fuel
  induction fuel with
  | zero => omega
  | succ fuel ih =>
    intro attempt lastErr stats _
    unfold sendRequestLoop
    rw [hfail attempt]
    dsimp only
    rcases Nat.eq_zero_or_pos fuel with hf | hf
    · subst hf
      simp only [sendRequestLoop]
      rcases Nat.eq_zero_or_pos attempt with ha | ha
      · subst ha
        simp [retryFailStats]
      · rw [if_pos ha, if_neg (by omega : ¬attempt = 0)]
        simp [retryFailStats, updateStats]
    · rw [ih (attempt + 1) (errAt attempt)
        (if attempt > 0 then updateStats stats false true else stats) hf]
      have harith : attempt + 1 + fuel - 1 = attempt + (fuel + 1) - 1 := by omega
      have harith2 : attempt + 1 + fuel = attempt + (fuel + 1) := by omega
      rw [harith, harith2]
      rcases Nat.eq_zero_or_pos attempt with ha | ha
      · subst ha
        rw [if_neg (by omega : ¬(0 : Nat) > 0), if_neg (by omega : ¬(0 + 1 = 0)),
          if_pos rfl]
        norm_num
      · rw [if_pos ha, if_neg (by omega : ¬attempt + 1 = 0),
          if_neg (by omega : ¬attempt = 0)]
        have hstats : retryFailStats (updateStats stats false true) (fuel - 0) =
            retryFailStats stats (fuel + 1 - 0) := by
          simp [retryFailStats, updateStats]
          omega
        rw [hstats]

theorem sendRequestLoop_step_error (transport : Transport) (frame : String)
    (fuel attempt : Nat) (lastErr e : String) (stats : CommunicationStats)
    (h : tryAttempt (transport frame attempt) = .error e) :
    sendRequestLoop transport frame (fuel + 1) attempt lastErr stats =
      sendRequestLoop transport frame fuel (attempt + 1) e
        (if attempt > 0 then updateStats stats false true else stats) := by
  conv_lhs => unfold sendRequestLoop
  rw [h]

theorem sendRequestLoop_attempts_succ_ge (transport : Transport) (frame : String)
    (fuel attempt : Nat) (lastErr : String) (stats : CommunicationStats)
    (h : 1 ≤ fuel) :
    attempt + 1 ≤ (sendRequestLoop transport frame fuel attempt lastErr stats).2.2 := by
  obtain ⟨f', rfl⟩ : ∃ f', fuel = f' + 1 := ⟨fuel - 1, by omega⟩
  unfold sendRequestLoop
  split
  next f heq =>
    simp
  next e heq =>
    dsimp only
    exact sendRequestLoop_attempts_ge transport frame f' (attempt + 1) e _

theorem readRegistersPost_attempts (k : Nat) (r : Except String String)
    (stats1 : CommunicationStats) (n : Nat) :
    (readRegistersPost k (r, stats1, n)).attempts = n := by
  cases r with
  | error e => rfl
  | ok rf =>
    show (match parseResponse rf with
      | .error msg => (⟨.error (.protocolError msg), updateStats stats1 false false, n⟩ :
          OpOutcome (List Nat))
      | .ok response =>
        if response.is_error then
          ⟨.error (.modbusException response.error_code), updateStats stats1 false false, n⟩
        else
          match parseRegisterValues response.data with
          | .error msg => ⟨.error (.protocolError msg), updateStats stats1 false false, n⟩
          | .ok values =>
            if values.length ≠ k then
              ⟨.error (.protocolError "Register count mismatch"),
                updateStats stats1 false false, n⟩
            else
              ⟨.ok values, updateStats stats1 true false, n⟩).attempts = n
    split
    · rfl
    · split
      · rfl
      · split
        · rfl
        · split
          · rfl
          · rfl

theorem writeRegisterPost_attempts (addr value : Nat) (r : Except String String)
    (stats1 : CommunicationStats) (n : Nat) :
    (writeRegisterPost addr value (r, stats1, n)).attempts = n := by
  cases r with
  | error e => rfl
  | ok rf =>
    show (match parseResponse rf with
      | .error msg => (⟨.error (.protocolError msg), updateStats stats1 false false, n⟩ :
          OpOutcome Bool)
      | .ok response =>
        if response.is_error then
          ⟨.error (.modbusException response.error_code), updateStats stats1 false false, n⟩
        else
          if response.function_code = 0x06 ∧ 4 ≤ response.data.length then
            if writtenAddr response ≠ addr ∨ writtenValue response ≠ value then
              ⟨.error (.protocolError "Write verification failed"),
                updateStats stats1 false false, n⟩
            else ⟨.ok true, updateStats stats1 true false, n⟩
          else ⟨.ok true, updateStats stats1 true false, n⟩).attempts = n
    split
    · rfl
    · split
      · rfl
      · split
        · split
          · rfl
          · rfl
        · rfl

theorem readRegisters_attempts_le (transport : Transport) (cfg : ModbusConfig)
    (stats : CommunicationStats) (a n : Nat) :
    (readRegisters transport cfg stats a n).attempts ≤ cfg.max_retries := by
  unfold readRegisters
  split
  · simp
  · rcases hsr : sendRequest transport cfg (createReadFrame cfg.slave_address a n) stats
      with ⟨res, stats1, m⟩
    rw [readRegistersPost_attempts]
    have h1 := sendRequestLoop_attempts_le transport
      (createReadFrame cfg.slave_address a n) cfg.max_retries 0 "" stats
    unfold sendRequest at hsr
    rw [hsr] at h1
    simpa using h1

theorem writeRegister_attempts_le (transport : Transport) (cfg : ModbusConfig)
    (stats : CommunicationStats) (a v : Nat) :
    (writeRegister transport cfg stats a v).attempts ≤ cfg.max_retries := by
  unfold writeRegister
  rcases hsr : sendRequest transport cfg (createWriteFrame cfg.slave_address a v) stats
    with ⟨res, stats1, m⟩
  rw [writeRegisterPost_attempts]
  have h1 := sendRequestLoop_attempts_le transport
    (createWriteFrame cfg.slave_address a v) cfg.max_retries 0 "" stats
  unfold sendRequest at hsr
  rw [hsr] at h1
  simpa using h1

theorem sendRequest_all_fail (transport : Transport) (cfg : ModbusConfig)
    (frame : String) (stats : CommunicationStats) (errAt : Nat → String)
    (hfail : ∀ i, tryAttempt (transport frame i) = .error (errAt i))
    (hR : 1 ≤ cfg.max_retries) :
    sendRequest transport cfg frame stats =
      (.error (errAt (cfg.max_retries - 1)),
       retryFailStats stats (cfg.max_retries - 1), cfg.max_retries) := by
  unfold sendRequest
  rw [sendRequestLoop_all_fail transport frame errAt hfail cfg.max_retries 0 "" stats hR]
  norm_num

/-- C2: against a transport whose every attempt fails (e.g., always HTTP 500),
a read or write operation makes exactly `max_retries` transport attempts and
terminates with a transport failure carrying the last underlying error;
afterwards the statistics show `total_requests`, `failed_requests` both
increased by `max_retries` and `retries` by `max_retries - 1` (from zeroed
statistics and the default `max_retries = 3`: total 3, failed 3, retries 2).
A successful operation takes at most `max_retries` attempts: the attempt count
of every operation is bounded by `max_retries` for every transport. -/
theorem c2_retry_exhaustion (transport : Transport) (cfg : ModbusConfig)
    (stats : CommunicationStats)
    (start_address num_registers register_address value : Nat) (errAt : Nat → String)
    (h1 : 1 ≤ num_registers) (h2 : num_registers ≤ 125) (hR : 1 ≤ cfg.max_retries)
    (hfail : ∀ frame i, tryAttempt (transport frame i) = .error (errAt i)) :
    readRegisters transport cfg stats start_address num_registers =
      ⟨.error (.transportFailure (errAt (cfg.max_retries - 1))),
       ⟨stats.total_requests + cfg.max_retries, stats.successful_requests,
        stats.failed_requests + cfg.max_retries,
        stats.retry_attempts + (cfg.max_retries - 1)⟩,
       cfg.max_retries⟩ ∧
    writeRegister transport cfg stats register_address value =
      ⟨.error (.transportFailure (errAt (cfg.max_retries - 1))),
       ⟨stats.total_requests + cfg.max_retries, stats.successful_requests,
        stats.failed_requests + cfg.max_retries,
        stats.retry_attempts + (cfg.max_retries - 1)⟩,
       cfg.max_retries⟩ ∧
    (∀ transport' : Transport,
      (readRegisters transport' cfg stats start_address num_registers).attempts ≤
        cfg.max_retries ∧
      (writeRegister transport' cfg stats register_address value).attempts ≤
        cfg.max_retries) := by
  have hstats : updateStats (retryFailStats stats (cfg.max_retries - 1)) false false =
      ⟨stats.total_requests + cfg.max_retries, stats.successful_requests,
       stats.failed_requests + cfg.max_retries,
       stats.retry_attempts + (cfg.max_retries - 1)⟩ := by
    simp [updateStats, retryFailStats]
    omega
  refine ⟨?_, ?_, ?_⟩
  · unfold readRegisters
    rw [if_neg (by omega)]
    rw [sendRequest_all_fail transport cfg _ stats errAt (fun i => hfail _ i) hR]
    show (⟨.error (.transportFailure (errAt (cfg.max_retries - 1))),
      updateStats (retryFailStats stats (cfg.max_retries - 1)) false false,
      cfg.max_retries⟩ : OpOutcome (List Nat)) = _
    rw [hstats]
  · unfold writeRegister
    rw [sendRequest_all_fail transport cfg _ stats errAt (fun i => hfail _ i) hR]
    show (⟨.error (.transportFailure (errAt (cfg.max_retries - 1))),
      updateStats (retryFailStats stats (cfg.max_retries - 1)) false false,
      cfg.max_retries⟩ : OpOutcome Bool) = _
    rw [hstats]
  · intro transport'
    exact ⟨readRegisters_attempts_le transport' cfg stats start_address num_registers,
      writeRegister_attempts_le transport' cfg stats register_address value⟩

/-- A transport that answers every attempt with HTTP 500. -/
def transport500 : Transport := fun _ _ => ⟨500, .invalid⟩

/-- C2 witness: default configuration (max_retries 3), zeroed statistics,
always-500 transport; total 3, failed 3, retries 2, attempts 3. -/
theorem c2_retry_exhaustion_witness :
    readRegisters transport500 {} {} 0 2 =
      ⟨.error (.transportFailure "HTTP request failed"), ⟨3, 0, 3, 2⟩, 3⟩ ∧
    writeRegister transport500 {} {} 8 100 =
      ⟨.error (.transportFailure "HTTP request failed"), ⟨3, 0, 3, 2⟩, 3⟩ ∧
    (∀ transport' : Transport,
      (readRegisters transport' {} {} 0 2).attempts ≤ 3 ∧
      (writeRegister transport' {} {} 8 100).attempts ≤ 3) :=
  c2_retry_exhaustion transport500 {} {} 0 2 8 100 (fun _ => "HTTP request failed")
    (by norm_num) (by norm_num) (by norm_num) (fun _ _ => rfl)

theorem readRegistersPost_exception (k : Nat) (f : String)
    (stats1 : CommunicationStats) (n : Nat) (r : ModbusResponse)
    (hp : parseResponse f = .ok r) (he : r.is_error = true) :
    readRegistersPost k (.ok f, stats1, n) =
      ⟨.error (.modbusException r.error_code), updateStats stats1 false false, n⟩ := by
  simp only [readRegistersPost, hp, he, if_true]

theorem writeRegisterPost_verify (addr value : Nat) (f : String)
    (stats1 : CommunicationStats) (n : Nat) (r : ModbusResponse)
    (hp : parseResponse f = .ok r) (hne : r.is_error = false)
    (hfc : r.function_code = 0x06) (hlen : 4 ≤ r.data.length) :
    writeRegisterPost addr value (.ok f, stats1, n) =
      if writtenAddr r ≠ addr ∨ writtenValue r ≠ value then
        ⟨.error (.protocolError "Write verification failed"),
          updateStats stats1 false false, n⟩
      else ⟨.ok true, updateStats stats1 true false, n⟩ := by
  simp only [writeRegisterPost, hp, hne, Bool.false_eq_true, if_false]
  rw [if_pos ⟨hfc, hlen⟩]

/-- C3 (counterexample): a transport that always delivers HTTP 200 with a
well-formed JSON envelope whose frame has an invalid CRC.  The claim says such
a frame-parse failure (not a Modbus exception response) is counted as a failed
attempt and retried up to `max_retries` (3): but the code parses the frame
only after the retry loop has returned, so exactly **one** transport attempt
is made and the CRC failure is terminal. -/
theorem c3_counterexample :
    (readRegisters (fun _ _ => ⟨200, .obj (some "110300000002FFFF")⟩) {} {} 0 2).attempts
      = 1 ∧
    (readRegisters (fun _ _ => ⟨200, .obj (some "110300000002FFFF")⟩) {} {} 0 2).result =
      .error (.protocolError "CRC validation failed") ∧
    ¬(readRegisters (fun _ _ => ⟨200, .obj (some "110300000002FFFF")⟩) {} {} 0 2).attempts
      = ({} : ModbusConfig).max_retries := by
  refine ⟨by decide, by decide, by decide⟩

/-- C3 (amended): during a read operation an attempt counts as failed and is
retried (while budget remains) exactly when the HTTP envelope fails — non-2xx
status, body not valid JSON, or absent/empty frame field.  Once the envelope
of an attempt succeeds, the retry loop returns: exactly one transport attempt
has been made and whatever happens during frame parsing — a Modbus exception
response **or any other parse failure** — is terminal and never retried; a
Modbus exception response surfaces a ModbusException carrying the error code. -/
theorem c3_retry_semantics (transport : Transport) (cfg : ModbusConfig)
    (stats : CommunicationStats) (start_address num_registers : Nat)
    (h1 : 1 ≤ num_registers) (h2 : num_registers ≤ 125) (hR : 1 ≤ cfg.max_retries) :
    ((∃ f, tryAttempt
        (transport (createReadFrame cfg.slave_address start_address num_registers) 0)
        = .ok f) →
      (readRegisters transport cfg stats start_address num_registers).attempts = 1) ∧
    (∀ e, tryAttempt
        (transport (createReadFrame cfg.slave_address start_address num_registers) 0)
        = .error e → 2 ≤ cfg.max_retries →
      2 ≤ (readRegisters transport cfg stats start_address num_registers).attempts) ∧
    (∀ f r, tryAttempt
        (transport (createReadFrame cfg.slave_address start_address num_registers) 0)
        = .ok f → parseResponse f = .ok r → r.is_error = true →
      (readRegisters transport cfg stats start_address num_registers).result =
        .error (.modbusException r.error_code) ∧
      (readRegisters transport cfg stats start_address num_registers).attempts = 1) := by
  obtain ⟨R', hR'⟩ : ∃ R', cfg.max_retries = R' + 1 := ⟨cfg.max_retries - 1, by omega⟩
  refine ⟨?_, ?_, ?_⟩
  · rintro ⟨f, hf⟩
    unfold readRegisters sendRequest
    rw [if_neg (by omega), hR',
      sendRequestLoop_first_ok transport _ R' 0 "" stats f hf,
      readRegistersPost_attempts]
  · intro e he hR2
    unfold readRegisters sendRequest
    rw [if_neg (by omega), hR',
      sendRequestLoop_step_error transport _ R' 0 "" e stats he]
    rcases hsr : sendRequestLoop transport
        (createReadFrame cfg.slave_address start_address num_registers) R' 1 e
        (if 0 > 0 then updateStats stats false true else stats)
      with ⟨res, s1, m⟩
    rw [readRegistersPost_attempts]
    have := sendRequestLoop_attempts_succ_ge transport
      (createReadFrame cfg.slave_address start_address num_registers) R' 1 e
      (if 0 > 0 then updateStats stats false true else stats) (by omega)
    rw [hsr] at this
    simpa using this
  · intro f r hf hp herr
    unfold readRegisters sendRequest
    rw [if_neg (by omega), hR',
      sendRequestLoop_first_ok transport _ R' 0 "" stats f hf,
      readRegistersPost_exception num_registers f stats (0 + 1) r hp herr]
    exact ⟨rfl, rfl⟩

/-- A transport that always delivers the Modbus exception response
`118302C134` (slave 0x11, function 0x03, exception code 0x02). -/
def transportExc : Transport := fun _ _ => ⟨200, .obj (some "118302C134")⟩

/-- C3 witness: against `transportExc`, a read surfaces the Modbus exception
code 2 after exactly one attempt. -/
theorem c3_retry_semantics_witness :
    (readRegisters transportExc {} {} 0 2).result = .error (.modbusException 2) ∧
    (readRegisters transportExc {} {} 0 2).attempts = 1 :=
  (c3_retry_semantics transportExc {} {} 0 2 (by norm_num) (by norm_num)
      (by norm_num)).2.2 "118302C134" ⟨17, 3, [], true, 2⟩ rfl (by decide) rfl

/-- C4 (counterexample): a transport answering a write with the CRC-valid
response `11060008E4DF` — function code 0x06 but only two echo data bytes
[0x00, 0x08].  The echo cannot and does not match the requested
(address, value) byte-for-byte, yet `writeRegister(8, 100)` succeeds, because
the source skips verification whenever the response carries fewer than 4 data
bytes. -/
theorem c4_counterexample :
    (writeRegister (fun _ _ => ⟨200, .obj (some "11060008E4DF")⟩) {} {} 8 100).result
      = .ok true ∧
    parseResponse "11060008E4DF" = .ok ⟨17, 6, [0, 8], false, 0⟩ ∧
    writtenValue ⟨17, 6, [0, 8], false, 0⟩ ≠ 100 := by
  refine ⟨by decide, by decide, by decide⟩

/-- C4 (amended): when the parsed write response has function code 0x06 and at
least 4 data bytes, the operation succeeds exactly when the echo matches both
the requested address and value; any mismatch (e.g. an echo of value 0x0065
for a write of 0x0064) is rejected with the write-verification error.
Responses with a different function code or fewer than 4 data bytes are
accepted without verification. -/
theorem c4_write_echo_verification (transport : Transport) (cfg : ModbusConfig)
    (stats : CommunicationStats) (register_address value : Nat)
    (f : String) (r : ModbusResponse) (hR : 1 ≤ cfg.max_retries)
    (hok : tryAttempt
      (transport (createWriteFrame cfg.slave_address register_address value) 0) = .ok f)
    (hp : parseResponse f = .ok r) (hne : r.is_error = false)
    (hfc : r.function_code = 0x06) (hlen : 4 ≤ r.data.length) :
    ((writeRegister transport cfg stats register_address value).result = .ok true ↔
      (writtenAddr r = register_address ∧ writtenValue r = value)) ∧
    ((writtenAddr r ≠ register_address ∨ writtenValue r ≠ value) →
      (writeRegister transport cfg stats register_address value).result =
        .error (.protocolError "Write verification failed")) := by
  obtain ⟨R', hR'⟩ : ∃ R', cfg.max_retries = R' + 1 := ⟨cfg.max_retries - 1, by omega⟩
  unfold writeRegister sendRequest
  rw [hR', sendRequestLoop_first_ok transport _ R' 0 "" stats f hok,
    writeRegisterPost_verify register_address value f stats (0 + 1) r hp hne hfc hlen]
  by_cases hmis : writtenAddr r ≠ register_address ∨ writtenValue r ≠ value
  · rw [if_pos hmis]
    constructor
    · constructor
      · intro hcontra
        exact absurd hcontra (by simp)
      · intro hmatch
        exact absurd hmis (by tauto)
    · intro _
      rfl
  · rw [if_neg hmis]
    push_neg at hmis
    constructor
    · constructor
      · intro _
        exact hmis
      · intro _
        rfl
    · intro hcontra
      exact absurd hcontra (by tauto)

/-- A transport echoing the write of value 0x64 to register 8 correctly. -/
def transportEcho : Transport := fun _ _ => ⟨200, .obj (some "1106000800640B73")⟩

/-- A transport echoing value 0x65 instead of the written 0x64. -/
def transportEcho65 : Transport := fun _ _ => ⟨200, .obj (some "110600080065CAB3")⟩

/-- C4 witness: a matching 4-byte echo is accepted; the 0x0065-for-0x0064 echo
of the spec scenario is rejected with the verification error. -/
theorem c4_write_echo_verification_witness :
    (writeRegister transportEcho {} {} 8 100).result = .ok true ∧
    (writeRegister transportEcho65 {} {} 8 100).result =
      .error (.protocolError "Write verification failed") :=
  ⟨(c4_write_echo_verification transportEcho {} {} 8 100 "1106000800640B73"
      ⟨17, 6, [0, 8, 0, 100], false, 0⟩ (by norm_num) rfl (by decide) rfl rfl
      (by norm_num)).1.mpr ⟨by decide, by decide⟩,
   (c4_write_echo_verification transportEcho65 {} {} 8 100 "110600080065CAB3"
      ⟨17, 6, [0, 8, 0, 101], false, 0⟩ (by norm_num) rfl (by decide) rfl rfl
      (by norm_num)).2 (Or.inr (by decide))⟩

/-! ### Scheduler poll-order lemmas -/

theorem pollFold_noop (l acc : List Nat) (h : ∀ a ∈ l, a ∈ acc) :
    l.foldl (fun acc addr => if addr ∈ acc then acc else acc ++ [addr]) acc = acc := by
  induction l generalizing acc with
  | nil => rfl
  | cons a rest ih =>
    simp only [List.foldl_cons]
    rw [if_pos (h a (List.mem_cons_self _ _))]
    exact ih acc (fun x hx => h x (List.mem_cons_of_mem _ hx))

theorem readSingleRegister_addr (gateway : Nat → Nat → Option String)
    (register_configs : List (Nat × RegisterConfig)) (now address : Nat)
    (s : AcquisitionSample)
    (h : readSingleRegister gateway register_configs now address = some s) :
    s.register_address = address := by
  unfold readSingleRegister at h
  split at h
  · exact absurd h (by simp)
  · split at h
    · exact absurd h (by simp)
    · rw [Option.some_inj] at h
      rw [← h]

theorem readMultipleRegisters_addrs_sublist (gateway : Nat → Nat → Option String)
    (register_configs : List (Nat × RegisterConfig)) (now : Nat)
    (addresses : List Nat) :
    ((readMultipleRegisters gateway register_configs now addresses).map
      (fun s => s.register_address)).Sublist addresses := by
  induction addresses with
  | nil => simp [readMultipleRegisters]
  | cons a rest ih =>
    unfold readMultipleRegisters at *
    rw [List.filterMap_cons]
    cases hr : readSingleRegister gateway register_configs now a with
    | none => exact ih.cons a
    | some s =>
      rw [List.map_cons,
        readSingleRegister_addr gateway register_configs now a s hr]
      exact ih.cons₂ a

/-- C7 (counterexample): with configured registers `{5}` and minimum registers
`[3]` (allowed by the source, which unions minimum registers into the snapshot
at poll time even when they are not configured), the poll cycle reads and
publishes in the order `[5, 3]` — not in ascending address order over the
union. -/
theorem c7_counterexample :
    pollCycleAddresses [(5, ⟨"X", "", 1⟩)] [3] = [5, 3] ∧
    (performPollCycleSamples (fun _ _ => some "110302AABB4754")
        [(5, ⟨"X", "", 1⟩)] [3] 0).map (fun s => s.register_address) = [5, 3] ∧
    ¬ List.Pairwise (· < ·) [5, 3] := by
  refine ⟨by decide, by decide, by decide⟩

/-- C7 (amended): the poll cycle reads the configured-register addresses in
ascending (`std::map`) order and then appends the minimum registers that are
not configured, in their configured order; whenever every minimum register is
among the configured addresses (the catalogue invariant of the spec), the
snapshot is exactly the ascending configured-address list and the published
samples are in ascending register-address order. -/
theorem c7_poll_order (gateway : Nat → Nat → Option String)
    (register_configs : List (Nat × RegisterConfig))
    (minimum_registers : List Nat) (now : Nat)
    (hsorted : List.Pairwise (· < ·) (register_configs.map Prod.fst))
    (hsub : ∀ a ∈ minimum_registers, a ∈ register_configs.map Prod.fst) :
    pollCycleAddresses register_configs minimum_registers =
      register_configs.map Prod.fst ∧
    List.Pairwise (· < ·)
      ((performPollCycleSamples gateway register_configs minimum_registers now).map
        (fun s => s.register_address)) := by
  have haddr : pollCycleAddresses register_configs minimum_registers =
      register_configs.map Prod.fst :=
    pollFold_noop minimum_registers (register_configs.map Prod.fst) hsub
  refine ⟨haddr, ?_⟩
  unfold performPollCycleSamples
  rw [haddr]
  exact List.Pairwise.sublist
    (readMultipleRegisters_addrs_sublist gateway register_configs now
      (register_configs.map Prod.fst)) hsorted

/-- A gateway answering every single-register read with the CRC-valid response
`110302AABB4754` (two data bytes 0xAA 0xBB). -/
def gatewayAll : Nat → Nat → Option String := fun _ _ => some "110302AABB4754"

/-- C7 witness: configured registers `{1, 2}`, minimum registers `[1]` — the
snapshot is `[1, 2]` and the published samples are in ascending order. -/
theorem c7_poll_order_witness :
    pollCycleAddresses [(1, ⟨"X", "", 1⟩), (2, ⟨"Y", "", 1⟩)] [1] =
      [(1, (⟨"X", "", 1⟩ : RegisterConfig)), (2, ⟨"Y", "", 1⟩)].map Prod.fst ∧
    List.Pairwise (· < ·)
      ((performPollCycleSamples gatewayAll
          [(1, ⟨"X", "", 1⟩), (2, ⟨"Y", "", 1⟩)] [1] 0).map
        (fun s => s.register_address)) :=
  c7_poll_order gatewayAll [(1, ⟨"X", "", 1⟩), (2, ⟨"Y", "", 1⟩)] [1] 0
    (by decide) (by decide)

/-- C8: `SQLiteDataStorage::storeSample` persists only the register address,
the raw value and the timestamp; `getSamples` reconstructs samples with
default-constructed (empty) `register_name` and `unit` and an uninitialized
`scaled_value`.  Storing the test sample
`{ts 1000, addr 0, name "Voltage", raw 2300, scaled 230, unit "V"}` and
reading it back yields name `""` and unit `""` — contradicting the claim (and
the repository's own test `SQLiteStorage_StoreSingleSample_Success`, which
expects the retrieved sample to match the stored one including scaled value
and unit). -/
theorem c8_sqlite_drops_fields (junk : ℚ) :
    sqliteGetSamples junk
        (sqliteStoreSample [] ⟨1000, 0, "Voltage", 2300, 230, "V"⟩) 0 1 =
      [⟨1000, 0, "", 2300, junk, ""⟩] ∧
    (⟨1000, 0, "", 2300, junk, ""⟩ : AcquisitionSample).register_name ≠ "Voltage" ∧
    (⟨1000, 0, "", 2300, junk, ""⟩ : AcquisitionSample).unit ≠ "V" := by
  refine ⟨rfl, ?_, ?_⟩
  · show ("" : String) ≠ "Voltage"
    decide
  · show ("" : String) ≠ "V"
    decide

/-- C9: any non-exception response the (spec-modelled) single-register read
delivers to `AcquisitionScheduler::readSingleRegister` carries exactly
`2·N = 2` data bytes, so the accesses `data[0]` and `data[1]` performed after
the emptiness check are in bounds. -/
theorem c9_read_response_data_bounds (gateway : Nat → Nat → Option String)
    (address : Nat) (r : ModbusResponse)
    (h : readHoldingRegisters gateway address 1 = .ok r) (he : r.is_error = false) :
    2 ≤ r.data.length := by
  unfold readHoldingRegisters specParseRead at h
  rcases hgw : gateway address 1 with _ | fh
  · rw [hgw] at h
    simp at h
  · rw [hgw] at h
    dsimp only at h
    rcases hpr : parseResponse fh with e | r'
    · rw [hpr] at h
      simp at h
    · rw [hpr] at h
      dsimp only at h
      split at h
      next herr =>
        rw [Except.ok.injEq] at h
        subst h
        rw [he] at herr
        exact absurd herr (by simp)
      next herr =>
        split at h
        next hcond =>
          rw [Except.ok.injEq] at h
          subst h
          have := hcond.2
          omega
        next hcond =>
          simp at h

/-- C9 witness: the bound applied to the concrete gateway response
`110302AABB4754`. -/
theorem c9_read_response_data_bounds_witness :
    2 ≤ (⟨17, 3, [170, 187], false, 0⟩ : ModbusResponse).data.length :=
  c9_read_response_data_bounds gatewayAll 0 ⟨17, 3, [170, 187], false, 0⟩
    (by decide) rfl

end ecoWatt
